import Mathlib

/-!
Verification development for the CV resume-analysis repository.

The repository consists of a Gemini-backed service module (`geminiService`,
present in the sources in three variants: `part_000`, and `part_001`/`part_002`
which share one response-handling structure) exporting `analyzeResume` and
`rectifyResume`, a `types` module declaring the data shapes, and `App.tsx`
(two variants sharing the same handler logic) orchestrating the
upload → analyze → rectify → re-score → export workflow.

This file shallowly embeds those sources:

* JavaScript strings are Lean `String`s; `String.prototype.trim` is modelled
  by `jsTrim`; `undefined`-able values are `Option`s; JS falsiness of an
  optional string (`undefined` or `""`) is `jsFalsy`.
* `JSON.parse` is modelled by `jsonParse`, a fuel-based recursive-descent
  parser producing the `Json` inductive.  Numeric payloads are modelled as
  integers (the claims never depend on fractional values).
* The Gemini delegate is an explicit function argument
  `GenRequest → Except String GenResponse`; a service call returns the list
  of requests it issued together with its `Except` outcome, so theorems can
  talk about what was (or was not) sent to the delegate.
* React `useState` state is the `AppState` record; each event handler is a
  pure state-transition function parameterised by the outcomes of the
  `await`ed service calls it performs.
-/

namespace CV

/-! ### JavaScript string primitives -/

/-- Whitespace recognised by the modelled `trim`/JSON lexer. -/
def isJsWs (c : Char) : Bool :=
  match c with
  | ' ' => true
  | '\t' => true
  | '\n' => true
  | '\r' => true
  | _ => false

/-- Drop leading and trailing whitespace from a character list. -/
def trimChars (cs : List Char) : List Char :=
  ((cs.dropWhile isJsWs).reverse.dropWhile isJsWs).reverse

/-- Model of JavaScript `String.prototype.trim`. -/
def jsTrim (s : String) : String := String.mk (trimChars s.toList)

/-- JS falsiness of an optional string: `undefined` and `""` are falsy. -/
def jsFalsy : Option String → Bool
  | none => true
  | some s => s == ""

/-! ### JSON values and `JSON.parse`

The services hand the delegate's raw textual payload to `JSON.parse` and
return the result with no further validation, so the parse step must be part
of the embedding.  `Json` is the value domain; `jsonParse` is a fuel-based
recursive-descent parser for the JSON grammar (numbers restricted to
integers, string escapes restricted to the common single-character ones). -/

inductive Json where
  | obj (fields : List (String × Json))
  | arr (elems : List Json)
  | str (s : String)
  | num (n : Int)
  | bool (b : Bool)
  | null
deriving Repr

/-- Skip JSON whitespace. -/
def skipWs : List Char → List Char
  | [] => []
  | c :: cs => if isJsWs c then skipWs cs else c :: cs

/-- Single-character JSON string escapes. -/
def escChar (e : Char) : Option Char :=
  if e = 'n' then some '\n'
  else if e = 't' then some '\t'
  else if e = 'r' then some '\r'
  else if e = '"' then some e
  else if e = '\\' then some e
  else if e = '/' then some e
  else none

/-- Parse the remainder of a JSON string literal (after the opening quote),
returning the decoded characters and the rest of the input. -/
def parseStringRest : List Char → Option (List Char × List Char)
  | [] => none
  | '"' :: rest => some ([], rest)
  | '\\' :: e :: rest =>
    match escChar e with
    | some c => (parseStringRest rest).map (fun p => (c :: p.1, p.2))
    | none => none
  | c :: rest => (parseStringRest rest).map (fun p => (c :: p.1, p.2))

/-- Span of leading decimal digits. -/
def takeDigits : List Char → List Char × List Char
  | [] => ([], [])
  | c :: cs =>
    if c.isDigit then
      let p := takeDigits cs
      (c :: p.1, p.2)
    else ([], c :: cs)

/-- Accumulator pass over a digit list (`48` is the code point of `0`). -/
def digitsAcc : List Char → Nat → Nat
  | [], acc => acc
  | c :: tl, acc => digitsAcc tl (acc * 10 + (c.toNat - 48))

/-- Numeric value of a digit list. -/
def digitsToNat (ds : List Char) : Nat := digitsAcc ds 0

/-- Parse a JSON integer (optional minus sign followed by digits). -/
def parseNumber : List Char → Option (Json × List Char)
  | '-' :: cs =>
    match takeDigits cs with
    | ([], _) => none
    | (ds, rest) => some (.num (-(Int.ofNat (digitsToNat ds))), rest)
  | cs =>
    match takeDigits cs with
    | ([], _) => none
    | (ds, rest) => some (.num (Int.ofNat (digitsToNat ds)), rest)

/-- Strip an expected keyword tail (`ull`, `rue`, `alse`) from the input. -/
def stripKeyword : List Char → List Char → Option (List Char)
  | [], input => some input
  | _ :: _, [] => none
  | k :: ks, c :: tl => if c = k then stripKeyword ks tl else none

mutual

/-- Parse one JSON value; `fuel` bounds the recursion. -/
def parseVal : Nat → List Char → Option (Json × List Char)
  | 0, _ => none
  | fuel + 1, cs =>
    match skipWs cs with
    | [] => none
    | c :: tl =>
      if c = '"' then (parseStringRest tl).map (fun p => (.str (String.mk p.1), p.2))
      else if c = '[' then
        match skipWs tl with
        | ']' :: r2 => some (.arr [], r2)
        | r1 => (parseArrItems fuel r1).map (fun p => (.arr p.1, p.2))
      else if c = '{' then
        match skipWs tl with
        | '}' :: r2 => some (.obj [], r2)
        | r1 => (parseObjItems fuel r1).map (fun p => (.obj p.1, p.2))
      else if c = 'n' then (stripKeyword ['u', 'l', 'l'] tl).map (fun r => (.null, r))
      else if c = 't' then (stripKeyword ['r', 'u', 'e'] tl).map (fun r => (.bool true, r))
      else if c = 'f' then (stripKeyword ['a', 'l', 's', 'e'] tl).map (fun r => (.bool false, r))
      else parseNumber (c :: tl)

/-- Parse the comma-separated items of a JSON array up to `]`. -/
def parseArrItems : Nat → List Char → Option (List Json × List Char)
  | 0, _ => none
  | fuel + 1, cs =>
    match parseVal fuel cs with
    | none => none
    | some (v, rest) =>
      match skipWs rest with
      | ',' :: r2 => (parseArrItems fuel r2).map (fun p => (v :: p.1, p.2))
      | ']' :: r2 => some ([v], r2)
      | _ => none

/-- Parse the `"key": value` members of a JSON object up to the closing brace. -/
def parseObjItems : Nat → List Char → Option (List (String × Json) × List Char)
  | 0, _ => none
  | fuel + 1, cs =>
    match skipWs cs with
    | '"' :: afterQuote =>
      (match parseStringRest afterQuote with
       | none => none
       | some (keyChars, afterKey) =>
         match skipWs afterKey with
         | [] => none
         | sep :: afterSep =>
           if sep = ':' then
             match parseVal fuel afterSep with
             | none => none
             | some (v, afterVal) =>
               match skipWs afterVal with
               | ',' :: more =>
                 (parseObjItems fuel more).map
                   (fun p => ((String.mk keyChars, v) :: p.1, p.2))
               | '}' :: more => some ([(String.mk keyChars, v)], more)
               | _ => none
           else none)
    | _ => none

end

/-- Model of `JSON.parse`: parse one value and require only whitespace after
it.  The fuel is generous for the input length, so no well-formed input runs
out. -/
def jsonParse (s : String) : Option Json :=
  match parseVal (2 * s.length + 2) s.toList with
  | some (v, rest) => if skipWs rest = [] then some v else none
  | none => none

/-- Field lookup in a parsed JSON object's member list. -/
def jsonField : List (String × Json) → String → Option Json
  | [], _ => none
  | (k, v) :: rest, nm => if k == nm then some v else jsonField rest nm

/-- Field lookup on a JSON value (objects only). -/
def jsonGet : Json → String → Option Json
  | .obj fs, nm => jsonField fs nm
  | _, _ => none

/-! ### Conformance to `ANALYSIS_SCHEMA`

`ANALYSIS_SCHEMA` (geminiService, lines 4-82, identical in all three service
variants) declares the response shape the delegate is asked to satisfy.  The
service itself never checks conformance — these predicates transcribe the
schema so the theorems can say which payloads conform and observe that the
service does not enforce it. -/

/-- `{ type: Type.STRING }`. -/
def isStringJson : Json → Bool
  | .str _ => true
  | _ => false

/-- `{ type: Type.NUMBER }`. -/
def isNumberJson : Json → Bool
  | .num _ => true
  | _ => false

/-- `{ type: Type.ARRAY, items: { type: Type.STRING } }`. -/
def isStringArrayJson : Json → Bool
  | .arr xs => xs.all isStringJson
  | _ => false

/-- An array whose items all satisfy `check`. -/
def arrayOf (check : Json → Bool) : Json → Bool
  | .arr xs => xs.all check
  | _ => false

/-- A property listed in `required`: must be present and well-typed. -/
def requiredField (fs : List (String × Json)) (nm : String) (check : Json → Bool) : Bool :=
  match jsonField fs nm with
  | none => false
  | some v => check v

/-- A declared but optional property: well-typed when present. -/
def optionalField (fs : List (String × Json)) (nm : String) (check : Json → Bool) : Bool :=
  match jsonField fs nm with
  | none => true
  | some v => check v

/-- The `personal_info` member schema (`required: ["name", "email", "phone"]`). -/
def conformsPersonalInfo : Json → Bool
  | .obj fs =>
    requiredField fs "name" isStringJson &&
    optionalField fs "role" isStringJson &&
    requiredField fs "email" isStringJson &&
    requiredField fs "phone" isStringJson &&
    optionalField fs "location" isStringJson &&
    optionalField fs "linkedin" isStringJson &&
    optionalField fs "links" isStringArrayJson
  | _ => false

/-- The `education` item schema (`required: ["institution", "degree"]`). -/
def conformsEducationEntry : Json → Bool
  | .obj fs =>
    requiredField fs "institution" isStringJson &&
    requiredField fs "degree" isStringJson &&
    optionalField fs "date" isStringJson &&
    optionalField fs "description" isStringJson
  | _ => false

/-- The `experience` item schema (`required: ["company", "role", "bullets"]`). -/
def conformsExperienceEntry : Json → Bool
  | .obj fs =>
    requiredField fs "company" isStringJson &&
    requiredField fs "role" isStringJson &&
    optionalField fs "date" isStringJson &&
    requiredField fs "bullets" isStringArrayJson
  | _ => false

/-- The `skills` item schema (`required: ["category", "items"]`). -/
def conformsSkillCategory : Json → Bool
  | .obj fs =>
    requiredField fs "category" isStringJson &&
    requiredField fs "items" isStringArrayJson
  | _ => false

/-- The `annotations` item schema (severity is the enum low/medium/high). -/
def conformsAnnotationEntry : Json → Bool
  | .obj fs =>
    requiredField fs "text_segment" isStringJson &&
    requiredField fs "critique" isStringJson &&
    requiredField fs "severity"
      (fun v => match v with
        | .str s => s == "low" || s == "medium" || s == "high"
        | _ => false) &&
    optionalField fs "suggested_fix" isStringJson
  | _ => false

/-- Conformance to the top level of `ANALYSIS_SCHEMA` (all fifteen members
are in its `required` list; `mode` is the enum generalized/specific). -/
def conformsToAnalysisSchema : Json → Bool
  | .obj fs =>
    requiredField fs "match_score" isNumberJson &&
    requiredField fs "personal_info" conformsPersonalInfo &&
    requiredField fs "education" (arrayOf conformsEducationEntry) &&
    requiredField fs "experience" (arrayOf conformsExperienceEntry) &&
    requiredField fs "skills" (arrayOf conformsSkillCategory) &&
    requiredField fs "certifications" isStringArrayJson &&
    requiredField fs "missing_keywords" isStringArrayJson &&
    requiredField fs "hard_skill_gaps" isStringArrayJson &&
    requiredField fs "soft_skill_gaps" isStringArrayJson &&
    requiredField fs "formatting_issues" isStringArrayJson &&
    requiredField fs "impact_analysis" isStringJson &&
    requiredField fs "impact_score" isNumberJson &&
    requiredField fs "original_text" isStringJson &&
    requiredField fs "annotations" (arrayOf conformsAnnotationEntry) &&
    requiredField fs "mode"
      (fun v => match v with
        | .str s => s == "generalized" || s == "specific"
        | _ => false)
  | _ => false

/-! ### Data model (`types.ts`) -/

/-- `PersonalInfo` from `types.ts`. -/
structure PersonalInfo where
  name : String
  role : Option String
  email : String
  phone : String
  location : Option String
  linkedin : Option String
  links : Option (List String)
deriving Repr, DecidableEq

/-- `EducationEntry` from `types.ts`. -/
structure EducationEntry where
  institution : String
  degree : String
  date : Option String
  description : Option String
deriving Repr, DecidableEq

/-- `SkillCategory` from `types.ts`. -/
structure SkillCategory where
  category : String
  items : List String
deriving Repr, DecidableEq

/-- `ExperienceEntry` from `types.ts` (`date` is non-optional there). -/
structure ExperienceEntry where
  company : String
  role : String
  date : String
  bullets : List String
deriving Repr, DecidableEq

/-- The `severity` enum of an annotation. -/
inductive Severity where
  | low
  | medium
  | high
deriving Repr, DecidableEq

/-- The annotation record from `types.ts` (there named after its `critique`
payload attached to a text segment). -/
structure AnalysisAnnotation where
  text_segment : String
  critique : String
  severity : Severity
  suggested_fix : Option String
deriving Repr, DecidableEq

/-- The `mode` enum of an analysis run. -/
inductive Mode where
  | generalized
  | specific
deriving Repr, DecidableEq

/-- `AnalysisResult` from `types.ts`; TS `number` fields are modelled as
integers. -/
structure AnalysisResult where
  match_score : Int
  previous_score : Option Int
  personal_info : PersonalInfo
  education : List EducationEntry
  experience : List ExperienceEntry
  skills : List SkillCategory
  certifications : List String
  missing_keywords : List String
  hard_skill_gaps : List String
  soft_skill_gaps : List String
  formatting_issues : List String
  impact_analysis : String
  impact_score : Int
  original_text : String
  annotations : List AnalysisAnnotation
  mode : Mode
deriving Repr, DecidableEq

/-- `RectifyResponse` from `types.ts`. -/
structure RectifyResponse where
  revisedSummary : String
  revisedExperience : List ExperienceEntry
deriving Repr, DecidableEq

/-- The binary document payload of a `ResumeSource` (the optional `raw : File`
handle is browser-only and carries no data the services read). -/
structure FilePayload where
  data : String
  mimeType : String
  name : String
deriving Repr, DecidableEq

/-- `ResumeSource` from `types.ts`: optional inline text and/or file payload. -/
structure ResumeSource where
  text : Option String
  file : Option FilePayload
deriving Repr, DecidableEq

/-- `ResumeDraft` from `types.ts`. -/
structure ResumeDraft where
  personal_info : PersonalInfo
  education : List EducationEntry
  experience : List ExperienceEntry
  skills : List SkillCategory
  certifications : List String
  summary : String
deriving Repr, DecidableEq

/-! ### The delegate request/response surface

A `generateContent` request as the services build it: the configured
credential, the model name, either a parts list (analysis) or a bare prompt
string (rectification), and the response-format directives. -/

/-- One element of a `contents.parts` array. -/
inductive Part where
  | text (s : String)
  | inlineData (data : String) (mimeType : String)
deriving Repr

/-- The `contents` argument: a parts object or a plain prompt string. -/
inductive GenContents where
  | parts (ps : List Part)
  | text (s : String)
deriving Repr

/-- Which declared output schema the request carries. -/
inductive SchemaTag where
  | analysis
  | rectify
deriving Repr, DecidableEq

/-- A `generateContent` request as assembled by the services. -/
structure GenRequest where
  apiKey : Option String
  model : String
  contents : GenContents
  responseMimeType : String
  responseSchema : SchemaTag
  thinkingBudget : Nat
deriving Repr

/-- A `generateContent` response: the textual payload may be absent. -/
structure GenResponse where
  text : Option String
deriving Repr, DecidableEq

/-- The failure taxonomy observable from the service layer. -/
inductive ServiceError where
  | missingApiKey
  | emptyResponse
  | malformedJson
  | typeErrorUndefined
  | transport (msg : String)
deriving Repr, DecidableEq

/-- The external delegate: total over requests, each call either rejects
(transport failure, message opaque to this layer) or resolves to a response. -/
abbrev Delegate := GenRequest → Except String GenResponse

/-- `const isGeneralized = !jobDescription || jobDescription.trim().length === 0`
(identical in all service variants). -/
def isGeneralized (jobDescription : Option String) : Bool :=
  jsFalsy jobDescription || (jsTrim (jobDescription.getD "")).length == 0

/-! Model of `JSON.stringify` on an `ExperienceEntry[]` value (used only to
assemble the rectification prompt). -/

/-- Escape one character for a JSON string literal. -/
def jsonEscapeChar (c : Char) : String :=
  if c = '"' then "\\\""
  else if c = '\\' then "\\\\"
  else if c = '\n' then "\\n"
  else if c = '\t' then "\\t"
  else if c = '\r' then "\\r"
  else String.mk [c]

/-- Render a string as a quoted JSON string literal. -/
def jsonQuote (s : String) : String :=
  "\"" ++ String.join (s.toList.map jsonEscapeChar) ++ "\""

/-- `JSON.stringify` of one experience entry, fields in declaration order. -/
def stringifyExperienceEntry (e : ExperienceEntry) : String :=
  "\x7b\"company\":" ++ jsonQuote e.company ++
  ",\"role\":" ++ jsonQuote e.role ++
  ",\"date\":" ++ jsonQuote e.date ++
  ",\"bullets\":[" ++ String.intercalate "," (e.bullets.map jsonQuote) ++ "]\x7d"

/-- `JSON.stringify` of an experience array. -/
def stringifyExperience (es : List ExperienceEntry) : String :=
  "[" ++ String.intercalate "," (es.map stringifyExperienceEntry) ++ "]"

/-! ### Service variant A (`src/unnamed/part_000`)

This variant guards on `process.env.API_KEY` at the top of both operations,
throws `"Empty response from AI"` when the response has no truthy text, and
returns `JSON.parse(response.text.trim())` — the parsed payload verbatim.
Its `isGeneralized` local is computed but feeds nothing (the system prompt of
this variant is a constant). -/

namespace GeminiServiceA

/-- The constant `systemPrompt` template of `analyzeResume` in `part_000`. -/
def analysisSystemPrompt : String :=
  "You are a Senior Full-Stack AI Engineer and CV Data Architect. \n  TASK: Perform a lossless high-fidelity extraction and analysis.\n  \n  ZERO-LOSS PROTOCOL:\n  1. Capture 100% of roles, companies, and bullet points.\n  2. Map personal data exactly. Use \x27Present\x27 for current roles.\n  3. Categorize skills into logical groups.\n  \n  OUTPUT: Strict JSON matching the schema. No text wrapping."

/-- The `parts` array: the prompt, then the file payload when present, else
the raw text when truthy (`if (source.file) ... else if (source.text) ...`). -/
def buildAnalysisParts (source : ResumeSource) : List Part :=
  [Part.text analysisSystemPrompt] ++
    (match source.file with
     | some f => [Part.inlineData f.data f.mimeType]
     | none =>
       match source.text with
       | some t => if t == "" then [] else [Part.text ("RAW CONTENT:\n" ++ t)]
       | none => [])

/-- The `generateContent` request `analyzeResume` issues. -/
def analysisRequest (apiKey : Option String) (source : ResumeSource) : GenRequest :=
  { apiKey := apiKey
    model := "gemini-3-pro-preview"
    contents := .parts (buildAnalysisParts source)
    responseMimeType := "application/json"
    responseSchema := .analysis
    thinkingBudget := 4000 }

/-- Response handling shared by both operations of this variant:
`if (!response.text) throw "Empty response from AI"; return JSON.parse(response.text.trim())`,
with every raised error propagated to the caller unhandled. -/
def processResponse (result : Except String GenResponse) : Except ServiceError Json :=
  match result with
  | .error e => .error (.transport e)
  | .ok resp =>
    match resp.text with
    | none => .error .emptyResponse
    | some t =>
      if t == "" then .error .emptyResponse
      else
        match jsonParse (jsTrim t) with
        | some v => .ok v
        | none => .error .malformedJson

/-- `analyzeResume` of `part_000`.  Returns the list of delegate requests the
call issued alongside its outcome; the success value is the raw parsed JSON,
exactly as the TypeScript hands `JSON.parse`'s result to the caller. -/
def analyzeResume (apiKey : Option String) (source : ResumeSource)
    (jobDescription : Option String) (delegate : Delegate) :
    List GenRequest × Except ServiceError Json :=
  if jsFalsy apiKey then ([], .error .missingApiKey)
  else
    let req := analysisRequest apiKey source
    ([req], processResponse (delegate req))

/-- The rectification prompt of `part_000`, including the joined keyword list
and the stringified experience input. -/
def rectifyPrompt (analysis : AnalysisResult) : String :=
  let keywordsList := String.intercalate ", " (analysis.missing_keywords ++ analysis.hard_skill_gaps)
  "You are an expert Resume Surgeon. \n  TASK: Transform bullets to Action-Result format without omitting ANY existing data.\n  \n  STRICT RULES:\n  1. Maintain 100% of roles and companies.\n  2. Integrate: [" ++
  keywordsList ++
  "].\n  3. DO NOT cut the middle of text.\n  \n  INPUT:\n  Summary: " ++
  analysis.impact_analysis ++
  "\n  Experience: " ++ stringifyExperience analysis.experience

/-- The `generateContent` request `rectifyResume` issues. -/
def rectifyRequest (apiKey : Option String) (analysis : AnalysisResult) : GenRequest :=
  { apiKey := apiKey
    model := "gemini-3-pro-preview"
    contents := .text (rectifyPrompt analysis)
    responseMimeType := "application/json"
    responseSchema := .rectify
    thinkingBudget := 4000 }

/-- `rectifyResume` of `part_000`: the same credential guard and response
handling as `analyzeResume`. -/
def rectifyResume (apiKey : Option String) (analysis : AnalysisResult)
    (jobDescription : Option String) (delegate : Delegate) :
    List GenRequest × Except ServiceError Json :=
  if jsFalsy apiKey then ([], .error .missingApiKey)
  else
    let req := rectifyRequest apiKey analysis
    ([req], processResponse (delegate req))

end GeminiServiceA

/-! ### Service variant B (`src/unnamed/part_001`; `part_002` shares this
exact control flow, differing only in prompt wording)

This variant has no credential guard — the client is constructed with
whatever `process.env.API_KEY` holds and the request is issued regardless.
Its return is `JSON.parse(response.text.trim() || '\x7b\x7d')`: an
empty-after-trim payload silently becomes the empty object, and an *absent*
payload makes `.trim()` throw a TypeError (not an EmptyResponse error). -/

namespace GeminiServiceB

/-- The `systemPrompt` of `analyzeResume` in `part_001`; unlike variant A it
interpolates the locally computed mode classification. -/
def analysisSystemPrompt (jobDescription : Option String) : String :=
  "You are the High-Fidelity CV Data Architect. \n  TASK: Perform a FULL EXTRACTION of the provided CV. \n  \n  STRICT RULES:\n  1. DO NOT TRUNCATE professional experience. Capture EVERY bullet point provided in the source.\n  2. If a section like \x27Education\x27 or \x27Skills\x27 exists, it MUST be extracted 100%. \n  3. Map personal data exactly. Fix logical errors (e.g. \x272025\x27 should be \x27Present\x27 if relevant to current employment).\n  \n  ANALYSIS:\n  - Mode: " ++
  (if isGeneralized jobDescription then "GENERAL" else "SPECIFIC ALIGNMENT") ++
  ".\n  - Be critical about the ATS score (0-100).\n  - List keywords missing relative to the JD.\n  \n  OUTPUT FORMAT: JSON ONLY. DO NOT ADD MARKDOWN WRAPPERS."

/-- The `parts` array of `part_001` (text prefix `CV CONTENT:`). -/
def buildAnalysisParts (jobDescription : Option String) (source : ResumeSource) : List Part :=
  [Part.text (analysisSystemPrompt jobDescription)] ++
    (match source.file with
     | some f => [Part.inlineData f.data f.mimeType]
     | none =>
       match source.text with
       | some t => if t == "" then [] else [Part.text ("CV CONTENT:\n" ++ t)]
       | none => [])

/-- The `generateContent` request `analyzeResume` issues. -/
def analysisRequest (apiKey : Option String) (source : ResumeSource)
    (jobDescription : Option String) : GenRequest :=
  { apiKey := apiKey
    model := "gemini-3-pro-preview"
    contents := .parts (buildAnalysisParts jobDescription source)
    responseMimeType := "application/json"
    responseSchema := .analysis
    thinkingBudget := 8000 }

/-- Response handling shared by both operations of this variant:
`JSON.parse(response.text.trim() || '\x7b\x7d')`.  An absent `text` raises a
TypeError from `.trim()`; an empty-after-trim text falls back to parsing the
literal `'\x7b\x7d'`, yielding the empty object. -/
def processResponse (result : Except String GenResponse) : Except ServiceError Json :=
  match result with
  | .error e => .error (.transport e)
  | .ok resp =>
    match resp.text with
    | none => .error .typeErrorUndefined
    | some t =>
      let trimmed := jsTrim t
      let payload := if trimmed == "" then "\x7b\x7d" else trimmed
      match jsonParse payload with
      | some v => .ok v
      | none => .error .malformedJson

/-- `analyzeResume` of `part_001`/`part_002`: no credential guard — the
request is issued with whatever credential is configured, absent included. -/
def analyzeResume (apiKey : Option String) (source : ResumeSource)
    (jobDescription : Option String) (delegate : Delegate) :
    List GenRequest × Except ServiceError Json :=
  let req := analysisRequest apiKey source jobDescription
  ([req], processResponse (delegate req))

/-- The rectification prompt of `part_001`. -/
def rectifyPrompt (analysis : AnalysisResult) : String :=
  let keywordsList := String.intercalate ", " (analysis.missing_keywords ++ analysis.hard_skill_gaps)
  "You are a Senior Resume Surgeon. \n  TASK: Refactor professional bullets for maximum impact without losing information.\n  \n  ZERO-LOSS RECTIFICATION RULES:\n  1. Use the Action-Result format for ALL bullets.\n  2. Maintain 100% of the roles and companies from the input. \n  3. DO NOT cut the middle of text. Each bullet must be a complete sentence.\n  4. Inject these keywords naturally: [" ++
  keywordsList ++
  "].\n  \n  INPUT EXPERIENCE:\n  " ++
  stringifyExperience analysis.experience ++
  "\n  \n  INPUT SUMMARY:\n  " ++
  analysis.impact_analysis

/-- The `generateContent` request `rectifyResume` issues. -/
def rectifyRequest (apiKey : Option String) (analysis : AnalysisResult) : GenRequest :=
  { apiKey := apiKey
    model := "gemini-3-pro-preview"
    contents := .text (rectifyPrompt analysis)
    responseMimeType := "application/json"
    responseSchema := .rectify
    thinkingBudget := 8000 }

/-- `rectifyResume` of `part_001`/`part_002`: no credential guard, same
response handling as `analyzeResume`. -/
def rectifyResume (apiKey : Option String) (analysis : AnalysisResult)
    (jobDescription : Option String) (delegate : Delegate) :
    List GenRequest × Except ServiceError Json :=
  let req := rectifyRequest apiKey analysis
  ([req], processResponse (delegate req))

end GeminiServiceB

/-! ### Orchestration layer (`src/App.tsx`)

`App.tsx` holds two variants of the component; their state shape and handler
logic coincide line for line except for the plain-text rendering used for the
re-score call (first variant, line 120: role then bullets; second variant,
line 543: role, `" at "`, company, then bullets) and which control the
source-removal button triggers (first variant, line 190: bare
`setResumeSource(null)`; second variant, line 602: `resetAll`).

Each `useState` cell is a field of `AppState`.  An async handler is modelled
as a pure function over the state, taking the outcome of each `await`ed
service call as an argument; a `catch` block that only alerts leaves the
state as the preceding writes left it.  `handleRectify` additionally returns
the `ResumeSource` it passed to the re-score call (when it reached it), so
theorems can inspect that argument. -/

namespace App

/-- The `useState` cells of the component. -/
structure AppState where
  resumeSource : Option ResumeSource
  jobDescription : String
  isAnalyzing : Bool
  analysis : Option AnalysisResult
  prevScore : Option Int
  isRectifying : Bool
  draft : Option ResumeDraft
deriving Repr, DecidableEq

/-- The initial render: every cell empty, `jobDescription` the empty string. -/
def initialState : AppState :=
  { resumeSource := none
    jobDescription := ""
    isAnalyzing := false
    analysis := none
    prevScore := none
    isRectifying := false
    draft := none }

/-- `resetAll` (both variants): clears source, job description, analysis,
draft, and baseline score in one handler invocation. -/
def resetAll (s : AppState) : AppState :=
  { s with
    resumeSource := none
    jobDescription := ""
    analysis := none
    draft := none
    prevScore := none }

/-- The source-removal button of the first App variant (line 190):
`setResumeSource(null)` alone — analysis, draft and baseline are untouched. -/
def clearSource (s : AppState) : AppState :=
  { s with resumeSource := none }

/-- Net effect of `handleFileUpload` once the reader resolves: the source
holds the encoded file payload and no inline text. -/
def handleFileUpload (s : AppState) (data mimeType name : String) : AppState :=
  { s with
    resumeSource := some
      { text := none
        file := some { data := data, mimeType := mimeType, name := name } } }

/-- The draft `handleAnalyze` builds wholesale from a fresh result. -/
def draftOf (res : AnalysisResult) : ResumeDraft :=
  { personal_info := res.personal_info
    education := res.education
    experience := res.experience
    skills := res.skills
    certifications := res.certifications
    summary := res.impact_analysis }

/-- `handleAnalyze` (both variants), as a function of the extraction
outcome.  On success: analysis replaced, `prevScore` set to the fresh
`match_score`, draft rebuilt wholesale.  On failure: only an alert — the
prior analysis/draft/baseline survive.  The busy flag is true between the two
`setIsAnalyzing` writes and false when the handler finishes. -/
def handleAnalyze (s : AppState) (outcome : Except String AnalysisResult) : AppState :=
  match s.resumeSource with
  | none => s
  | some _ =>
    match outcome with
    | .ok res =>
      { s with
        isAnalyzing := false
        analysis := some res
        prevScore := some res.match_score
        draft := some (draftOf res) }
    | .error _ => { s with isAnalyzing := false }

/-- Per-entry plain-text rendering of the first App variant (line 120):
the role, a newline, then the bullets joined by newlines. -/
def renderEntryV1 (e : ExperienceEntry) : String :=
  e.role ++ "\n" ++ String.intercalate "\n" e.bullets

/-- Per-entry plain-text rendering of the second App variant (line 543):
role, `" at "`, company, a newline, then the bullets joined by newlines. -/
def renderEntryV2 (e : ExperienceEntry) : String :=
  e.role ++ " at " ++ e.company ++ "\n" ++ String.intercalate "\n" e.bullets

/-- The synthesized full text sent for re-scoring: the draft summary, a blank
line, then the entry renderings joined by newlines. -/
def fullTextOf (renderEntry : ExperienceEntry → String) (d : ResumeDraft) : String :=
  d.summary ++ "\n\n" ++ String.intercalate "\n" (d.experience.map renderEntry)

/-- `handleRectify` (both variants; `renderEntry` selects the variant's
re-score rendering), as a function of the two sequential call outcomes.
Guard: requires analysis and draft.  Step 1 success updates the draft's
summary/experience wholesale; step 2 success overwrites only the stored
analysis's `match_score` (via the functional `setAnalysis` update); a failure
at either step only alerts, preserving all writes already made.  The second
component is the `ResumeSource` handed to the re-score call, `none` when the
handler never reached it. -/
def handleRectify (renderEntry : ExperienceEntry → String) (s : AppState)
    (rectifyOutcome : Except String RectifyResponse)
    (reScoreOutcome : Except String AnalysisResult) :
    AppState × Option ResumeSource :=
  match s.analysis, s.draft with
  | some _, some draft =>
    (match rectifyOutcome with
     | .error _ => ({ s with isRectifying := false }, none)
     | .ok res =>
       let newDraft :=
         { draft with summary := res.revisedSummary, experience := res.revisedExperience }
       let reScoreSource : ResumeSource :=
         { text := some (fullTextOf renderEntry newDraft), file := none }
       match reScoreOutcome with
       | .error _ =>
         ({ s with draft := some newDraft, isRectifying := false }, some reScoreSource)
       | .ok reScore =>
         ({ s with
            draft := some newDraft
            analysis :=
              (match s.analysis with
               | some prev => some { prev with match_score := reScore.match_score }
               | none => none)
            isRectifying := false }, some reScoreSource))
  | _, _ => (s, none)

end App

/-! ### Concrete sample data used by witnesses and counterexamples -/

/-- A concrete extracted contact block. -/
def samplePersonalInfo : PersonalInfo :=
  { name := "Jane Doe", role := none, email := "jane@x.com", phone := "555-1234",
    location := none, linkedin := none, links := none }

/-- A concrete experience entry. -/
def sampleEntry : ExperienceEntry :=
  { company := "Acme", role := "Engineer", date := "2020-Present", bullets := ["Built X"] }

/-- A concrete successful extraction result with `match_score` 42. -/
def sampleAnalysis : AnalysisResult :=
  { match_score := 42, previous_score := none, personal_info := samplePersonalInfo,
    education := [], experience := [sampleEntry], skills := [], certifications := [],
    missing_keywords := ["Kubernetes"], hard_skill_gaps := [], soft_skill_gaps := [],
    formatting_issues := [], impact_analysis := "Solid engineer.", impact_score := 60,
    original_text := "cv", annotations := [], mode := Mode.generalized }

/-- The draft derived from `sampleAnalysis`. -/
def sampleDraft : ResumeDraft := App.draftOf sampleAnalysis

/-- An app state right after a successful first extraction of `sampleAnalysis`. -/
def sampleState : App.AppState :=
  { resumeSource := some { text := some "cv", file := none }
    jobDescription := ""
    isAnalyzing := false
    analysis := some sampleAnalysis
    prevScore := some 42
    isRectifying := false
    draft := some sampleDraft }

/-- A concrete revision-service output. -/
def sampleRectify : RectifyResponse :=
  { revisedSummary := "Impact-driven engineer."
    revisedExperience := [{ company := "Acme", role := "Engineer", date := "2020-Present",
                            bullets := ["Shipped X, cutting costs 20%"] }] }

/-- A concrete re-score result with `match_score` 77. -/
def sampleReScore : AnalysisResult := { sampleAnalysis with match_score := 77 }

/-- A concrete uploaded-file payload. -/
def sampleFile : FilePayload :=
  { data := "QkFTRTY0", mimeType := "application/pdf", name := "cv.pdf" }

/-- A delegate payload that fully conforms to `ANALYSIS_SCHEMA` but carries
`mode: "specific"`. -/
def c1PayloadText : String :=
  "\x7b\"match_score\":50,\"personal_info\":\x7b\"name\":\"A\",\"email\":\"a@b.c\",\"phone\":\"1\"\x7d,\"education\":[],\"experience\":[],\"skills\":[],\"certifications\":[],\"missing_keywords\":[],\"hard_skill_gaps\":[],\"soft_skill_gaps\":[],\"formatting_issues\":[],\"impact_analysis\":\"ok\",\"impact_score\":10,\"original_text\":\"cv\",\"annotations\":[],\"mode\":\"specific\"\x7d"

/-- The JSON value `c1PayloadText` parses to. -/
def c1Payload : Json :=
  .obj [("match_score", .num 50),
        ("personal_info", .obj [("name", .str "A"), ("email", .str "a@b.c"), ("phone", .str "1")]),
        ("education", .arr []), ("experience", .arr []), ("skills", .arr []),
        ("certifications", .arr []), ("missing_keywords", .arr []),
        ("hard_skill_gaps", .arr []), ("soft_skill_gaps", .arr []),
        ("formatting_issues", .arr []),
        ("impact_analysis", .str "ok"), ("impact_score", .num 10),
        ("original_text", .str "cv"), ("annotations", .arr []),
        ("mode", .str "specific")]

/-! ### Claim C1 -/

set_option maxRecDepth 20000 in
/-- C1 is falsified as stated: with `jobDescription` absent (so the local
classification is "generalized"), `analyzeResume` succeeds and returns a
payload whose `mode` is `"specific"` — the delegate's value, fully
schema-conformant, contradicting "the returned mode always equals the locally
computed classification regardless of what the delegate's response contains". -/
theorem C1_counterexample :
    isGeneralized none = true ∧
    (GeminiServiceA.analyzeResume (some "key") { text := some "cv", file := none } none
        (fun _ => .ok { text := some c1PayloadText })).2 = .ok c1Payload ∧
    jsonGet c1Payload "mode" = some (Json.str "specific") ∧
    conformsToAnalysisSchema c1Payload = true :=
  ⟨rfl, rfl, rfl, rfl⟩

/-- C1 (amended): the successful return value of `analyzeResume` is the
delegate payload as parsed by `JSON.parse`, unchanged — its `mode` field is
whatever the delegate supplied; the locally computed classification only
selects prompt text (in the `part_001` variant) and is never enforced on the
result.  This holds for both service variants. -/
theorem C1_amended_returns_parsed_payload
    (k : String) (hk : k ≠ "")
    (src : ResumeSource) (jd : Option String) (d : Delegate)
    (resp : GenResponse) (t : String) (v : Json)
    (hA : d (GeminiServiceA.analysisRequest (some k) src) = .ok resp)
    (ht : resp.text = some t) (hne : t ≠ "")
    (hp : jsonParse (jsTrim t) = some v) :
    (GeminiServiceA.analyzeResume (some k) src jd d).2 = .ok v ∧
    (∀ (dB : Delegate) (respB : GenResponse),
      dB (GeminiServiceB.analysisRequest (some k) src jd) = .ok respB →
      respB.text = some t →
      (GeminiServiceB.analyzeResume (some k) src jd dB).2 = .ok v) := by
  have hkf : ((k : String) == "") = false := beq_eq_false_iff_ne.mpr hk
  have htf : ((t : String) == "") = false := beq_eq_false_iff_ne.mpr hne
  constructor
  · simp [GeminiServiceA.analyzeResume, GeminiServiceA.processResponse, jsFalsy, hkf,
      hA, ht, htf, hp]
  · intro dB respB hB htB
    have htrim : ¬ (jsTrim t == "") = true := by
      intro habs
      rw [beq_iff_eq] at habs
      rw [habs] at hp
      simp [jsonParse, parseVal, skipWs, parseNumber, takeDigits] at hp
    simp [GeminiServiceB.analyzeResume, GeminiServiceB.processResponse, hB, htB,
      htrim, hp]

/-- C1 witness: the amended theorem applied at a concrete call whose delegate
returns the payload `"3"`. -/
theorem C1_amended_witness :
    (GeminiServiceA.analyzeResume (some "key") { text := some "cv", file := none } (some "jd")
        (fun _ => .ok { text := some "3" })).2 = .ok (.num 3) ∧
    (∀ (dB : Delegate) (respB : GenResponse),
      dB (GeminiServiceB.analysisRequest (some "key") { text := some "cv", file := none } (some "jd")) = .ok respB →
      respB.text = some "3" →
      (GeminiServiceB.analyzeResume (some "key") { text := some "cv", file := none } (some "jd") dB).2 = .ok (.num 3)) :=
  C1_amended_returns_parsed_payload "key" (by decide)
    { text := some "cv", file := none } (some "jd")
    (fun _ => .ok { text := some "3" }) { text := some "3" } "3" (.num 3)
    rfl rfl (by decide) rfl

/-! ### Claim C4 -/

/-- C4 is falsified as stated: the payload `"\x7b\x7d"` parses as JSON but has
none of the required fields, yet `analyzeResume` returns it as a success value
instead of failing with a malformed-response error — the source performs no
schema validation after `JSON.parse`. -/
theorem C4_counterexample :
    (GeminiServiceA.analyzeResume (some "key") { text := some "cv", file := none } none
        (fun _ => .ok { text := some "\x7b\x7d" })).2 = .ok (Json.obj []) ∧
    conformsToAnalysisSchema (Json.obj []) = false :=
  ⟨rfl, rfl⟩

/-- C4 (amended): `analyzeResume` fails on a malformed payload only in the
`JSON.parse` sense — when the text is not syntactically valid JSON.  Any
syntactically valid payload, schema-conformant or not, is returned verbatim
as the result with no structural validation. -/
theorem C4_amended_parse_is_only_guard
    (k : String) (hk : k ≠ "") (src : ResumeSource) (jd : Option String)
    (d : Delegate) (resp : GenResponse) (t : String)
    (hA : d (GeminiServiceA.analysisRequest (some k) src) = .ok resp)
    (ht : resp.text = some t) (hne : t ≠ "") :
    (jsonParse (jsTrim t) = none →
      (GeminiServiceA.analyzeResume (some k) src jd d).2 = .error .malformedJson) ∧
    (∀ v, jsonParse (jsTrim t) = some v →
      (GeminiServiceA.analyzeResume (some k) src jd d).2 = .ok v) := by
  have hkf : ((k : String) == "") = false := beq_eq_false_iff_ne.mpr hk
  have htf : ((t : String) == "") = false := beq_eq_false_iff_ne.mpr hne
  constructor
  · intro hnone
    simp [GeminiServiceA.analyzeResume, GeminiServiceA.processResponse, jsFalsy, hkf,
      hA, ht, htf, hnone]
  · intro v hv
    simp [GeminiServiceA.analyzeResume, GeminiServiceA.processResponse, jsFalsy, hkf,
      hA, ht, htf, hv]

/-- C4 witness: the amended theorem applied at a concrete call whose delegate
returns the non-JSON payload `"oops"`. -/
theorem C4_amended_witness :
    (jsonParse (jsTrim "oops") = none →
      (GeminiServiceA.analyzeResume (some "key") { text := some "cv", file := none } none
          (fun _ => .ok { text := some "oops" })).2 = .error .malformedJson) ∧
    (∀ v, jsonParse (jsTrim "oops") = some v →
      (GeminiServiceA.analyzeResume (some "key") { text := some "cv", file := none } none
          (fun _ => .ok { text := some "oops" })).2 = .ok v) :=
  C4_amended_parse_is_only_guard "key" (by decide) { text := some "cv", file := none } none
    (fun _ => .ok { text := some "oops" }) { text := some "oops" } "oops"
    rfl rfl (by decide)

/-! ### Claim C5 -/

/-- C5 is falsified as stated: in the `part_001`/`part_002` variant a delegate
response whose textual payload is empty makes `analyzeResume` *return a
value* — the empty object from the `|| '\x7b\x7d'` fallback — rather than fail
with an EmptyResponse error. -/
theorem C5_counterexample :
    (GeminiServiceB.analyzeResume (some "key") { text := some "cv", file := none } none
        (fun _ => .ok { text := some "" })).2 = .ok (Json.obj []) :=
  rfl

/-- C5 (amended): only the `part_000` variant fails with the "Empty response
from AI" error when the delegate returns no textual payload (absent or empty
text), for both `analyzeResume` and `rectifyResume`.  In `part_001`/`part_002`
an empty-string payload is silently parsed as `'\x7b\x7d'` and returned as the
empty object, and an absent payload fails with a TypeError from `.trim()`,
not an EmptyResponse error. -/
theorem C5_amended_empty_payload_behavior (k : String) (hk : k ≠ "")
    (src : ResumeSource) (jd : Option String) (a : AnalysisResult) :
    ((GeminiServiceA.analyzeResume (some k) src jd (fun _ => .ok { text := none })).2
        = .error .emptyResponse) ∧
    ((GeminiServiceA.analyzeResume (some k) src jd (fun _ => .ok { text := some "" })).2
        = .error .emptyResponse) ∧
    ((GeminiServiceA.rectifyResume (some k) a jd (fun _ => .ok { text := none })).2
        = .error .emptyResponse) ∧
    ((GeminiServiceA.rectifyResume (some k) a jd (fun _ => .ok { text := some "" })).2
        = .error .emptyResponse) ∧
    ((GeminiServiceB.analyzeResume (some k) src jd (fun _ => .ok { text := some "" })).2
        = .ok (Json.obj [])) ∧
    ((GeminiServiceB.analyzeResume (some k) src jd (fun _ => .ok { text := none })).2
        = .error .typeErrorUndefined) ∧
    ((GeminiServiceB.rectifyResume (some k) a jd (fun _ => .ok { text := some "" })).2
        = .ok (Json.obj [])) ∧
    ((GeminiServiceB.rectifyResume (some k) a jd (fun _ => .ok { text := none })).2
        = .error .typeErrorUndefined) := by
  have hkf : ((k : String) == "") = false := beq_eq_false_iff_ne.mpr hk
  refine ⟨?_, ?_, ?_, ?_, rfl, rfl, rfl, rfl⟩ <;>
    simp [GeminiServiceA.analyzeResume, GeminiServiceA.rectifyResume,
      GeminiServiceA.processResponse, jsFalsy, hkf]

/-- C5 witness: the amended theorem applied at a concrete credential, source
and analysis. -/
theorem C5_amended_witness :
    ((GeminiServiceA.analyzeResume (some "key") { text := some "cv", file := none } none
        (fun _ => .ok { text := none })).2 = .error .emptyResponse) ∧
    ((GeminiServiceA.analyzeResume (some "key") { text := some "cv", file := none } none
        (fun _ => .ok { text := some "" })).2 = .error .emptyResponse) ∧
    ((GeminiServiceA.rectifyResume (some "key") sampleAnalysis none
        (fun _ => .ok { text := none })).2 = .error .emptyResponse) ∧
    ((GeminiServiceA.rectifyResume (some "key") sampleAnalysis none
        (fun _ => .ok { text := some "" })).2 = .error .emptyResponse) ∧
    ((GeminiServiceB.analyzeResume (some "key") { text := some "cv", file := none } none
        (fun _ => .ok { text := some "" })).2 = .ok (Json.obj [])) ∧
    ((GeminiServiceB.analyzeResume (some "key") { text := some "cv", file := none } none
        (fun _ => .ok { text := none })).2 = .error .typeErrorUndefined) ∧
    ((GeminiServiceB.rectifyResume (some "key") sampleAnalysis none
        (fun _ => .ok { text := some "" })).2 = .ok (Json.obj [])) ∧
    ((GeminiServiceB.rectifyResume (some "key") sampleAnalysis none
        (fun _ => .ok { text := none })).2 = .error .typeErrorUndefined) :=
  C5_amended_empty_payload_behavior "key" (by decide)
    { text := some "cv", file := none } none sampleAnalysis

/-! ### Claim C6 -/

/-- C6 is falsified as stated: in the `part_001`/`part_002` variant there is
no credential check at all — with no API key configured, `analyzeResume`
still issues the delegate request and surfaces the transport rejection, not a
MissingCredential error. -/
theorem C6_counterexample :
    GeminiServiceB.analyzeResume none { text := some "cv", file := none } none
        (fun _ => .error "401") =
      ([GeminiServiceB.analysisRequest none { text := some "cv", file := none } none],
       .error (.transport "401")) :=
  rfl

/-- C6 (amended): only the `part_000` variant guards the credential: with the
key absent or empty, both of its operations fail with the "Missing API Key"
error before any delegate request is issued (the request list is empty), the
check being the single guard at the top of each call.  The
`part_001`/`part_002` variant performs no such check and issues the request
even with no credential configured. -/
theorem C6_amended_credential_check (src : ResumeSource) (jd : Option String)
    (a : AnalysisResult) (d : Delegate) :
    (GeminiServiceA.analyzeResume none src jd d = ([], .error .missingApiKey)) ∧
    (GeminiServiceA.analyzeResume (some "") src jd d = ([], .error .missingApiKey)) ∧
    (GeminiServiceA.rectifyResume none a jd d = ([], .error .missingApiKey)) ∧
    (GeminiServiceA.rectifyResume (some "") a jd d = ([], .error .missingApiKey)) ∧
    ((GeminiServiceB.analyzeResume none src jd d).1 =
      [GeminiServiceB.analysisRequest none src jd]) ∧
    ((GeminiServiceB.rectifyResume none a jd d).1 =
      [GeminiServiceB.rectifyRequest none a]) :=
  ⟨rfl, rfl, rfl, rfl, rfl, rfl⟩

/-! ### Claim C2 -/

/-- C2 holds: when the rectification call succeeds and the subsequent
re-score call fails, the final state's draft carries the revision output in
its summary and experience while the stored analysis — its `match_score`
included — is exactly the pre-revision value.  `render` quantifies over both
App variants' re-score renderings, which share this handler logic. -/
theorem C2_rectify_success_rescore_failure
    (render : ExperienceEntry → String) (s : App.AppState)
    (a : AnalysisResult) (d : ResumeDraft) (r : RectifyResponse) (e : String)
    (ha : s.analysis = some a) (hd : s.draft = some d) :
    ((App.handleRectify render s (.ok r) (.error e)).1.draft =
      some { d with summary := r.revisedSummary, experience := r.revisedExperience }) ∧
    (App.handleRectify render s (.ok r) (.error e)).1.analysis = some a := by
  simp [App.handleRectify, ha, hd]

/-- C2 witness: the theorem applied at the concrete post-extraction state. -/
theorem C2_witness :
    ((App.handleRectify App.renderEntryV1 sampleState (.ok sampleRectify) (.error "net")).1.draft =
      some { sampleDraft with
             summary := sampleRectify.revisedSummary
             experience := sampleRectify.revisedExperience }) ∧
    (App.handleRectify App.renderEntryV1 sampleState
        (.ok sampleRectify) (.error "net")).1.analysis = some sampleAnalysis :=
  C2_rectify_success_rescore_failure App.renderEntryV1 sampleState
    sampleAnalysis sampleDraft sampleRectify "net" rfl rfl

/-! ### Claim C3 -/

/-- C3 holds: after a fully successful revision cycle the stored analysis is
the pre-revision record with only `match_score` overwritten by the re-score
result — every other field, `previous_score` through `mode`, is unchanged. -/
theorem C3_rescore_updates_only_match_score
    (render : ExperienceEntry → String) (s : App.AppState)
    (a : AnalysisResult) (d : ResumeDraft) (r : RectifyResponse) (re : AnalysisResult)
    (ha : s.analysis = some a) (hd : s.draft = some d) :
    ∃ a', (App.handleRectify render s (.ok r) (.ok re)).1.analysis = some a' ∧
      a'.match_score = re.match_score ∧
      a'.previous_score = a.previous_score ∧
      a'.personal_info = a.personal_info ∧
      a'.education = a.education ∧
      a'.experience = a.experience ∧
      a'.skills = a.skills ∧
      a'.certifications = a.certifications ∧
      a'.missing_keywords = a.missing_keywords ∧
      a'.hard_skill_gaps = a.hard_skill_gaps ∧
      a'.soft_skill_gaps = a.soft_skill_gaps ∧
      a'.formatting_issues = a.formatting_issues ∧
      a'.impact_analysis = a.impact_analysis ∧
      a'.impact_score = a.impact_score ∧
      a'.original_text = a.original_text ∧
      a'.annotations = a.annotations ∧
      a'.mode = a.mode := by
  refine ⟨{ a with match_score := re.match_score }, ?_⟩
  simp [App.handleRectify, ha, hd]

/-- C3 witness: the theorem applied at the concrete post-extraction state and
a re-score returning 77. -/
theorem C3_witness :
    ∃ a', (App.handleRectify App.renderEntryV1 sampleState
            (.ok sampleRectify) (.ok sampleReScore)).1.analysis = some a' ∧
      a'.match_score = sampleReScore.match_score ∧
      a'.previous_score = sampleAnalysis.previous_score ∧
      a'.personal_info = sampleAnalysis.personal_info ∧
      a'.education = sampleAnalysis.education ∧
      a'.experience = sampleAnalysis.experience ∧
      a'.skills = sampleAnalysis.skills ∧
      a'.certifications = sampleAnalysis.certifications ∧
      a'.missing_keywords = sampleAnalysis.missing_keywords ∧
      a'.hard_skill_gaps = sampleAnalysis.hard_skill_gaps ∧
      a'.soft_skill_gaps = sampleAnalysis.soft_skill_gaps ∧
      a'.formatting_issues = sampleAnalysis.formatting_issues ∧
      a'.impact_analysis = sampleAnalysis.impact_analysis ∧
      a'.impact_score = sampleAnalysis.impact_score ∧
      a'.original_text = sampleAnalysis.original_text ∧
      a'.annotations = sampleAnalysis.annotations ∧
      a'.mode = sampleAnalysis.mode :=
  C3_rescore_updates_only_match_score App.renderEntryV1 sampleState
    sampleAnalysis sampleDraft sampleRectify sampleReScore rfl rfl

/-! ### Claim C7 -/

/-- C7 holds: a successful extraction stores that extraction's `match_score`
as the baseline (`setPrevScore(res.match_score)`), and the revision workflow
never writes `prevScore` in any outcome combination — so across a revision
cycle the baseline remains the score captured at the most recent successful
extraction. -/
theorem C7_baseline_score :
    (∀ (s : App.AppState) (src : ResumeSource) (res : AnalysisResult),
      s.resumeSource = some src →
      (App.handleAnalyze s (.ok res)).prevScore = some res.match_score) ∧
    (∀ (render : ExperienceEntry → String) (s : App.AppState)
       (rOut : Except String RectifyResponse) (aOut : Except String AnalysisResult),
      (App.handleRectify render s rOut aOut).1.prevScore = s.prevScore) := by
  constructor
  · intro s src res hsrc
    simp [App.handleAnalyze, hsrc]
  · intro render s rOut aOut
    cases ha : s.analysis with
    | none => simp [App.handleRectify, ha]
    | some a =>
      cases hd : s.draft with
      | none => simp [App.handleRectify, ha, hd]
      | some d =>
        cases rOut with
        | error e => simp [App.handleRectify, ha, hd]
        | ok r =>
          cases aOut with
          | error e => simp [App.handleRectify, ha, hd]
          | ok re => simp [App.handleRectify, ha, hd]

/-- C7 witness: the theorem applied at concrete states — a re-extraction
stores the fresh score 77 as baseline, and a failed revision cycle leaves the
baseline 42 in place. -/
theorem C7_witness :
    (App.handleAnalyze sampleState (.ok sampleReScore)).prevScore = some 77 ∧
    (App.handleRectify App.renderEntryV1 sampleState
        (.error "e1") (.error "e2")).1.prevScore = some 42 :=
  ⟨C7_baseline_score.1 sampleState { text := some "cv", file := none } sampleReScore rfl,
   C7_baseline_score.2 App.renderEntryV1 sampleState (.error "e1") (.error "e2")⟩

/-! ### Claim C8 -/

/-- C8 is falsified as stated for the second App variant: on a concrete
revision the re-score call's source text is
`"...\n\nEngineer at Acme\n..."` — the rendering includes `" at "` and the
company between the role and the bullets, so it is not the claimed rendering
of "its role and its bullets" (which the first variant produces). -/
theorem C8_counterexample :
    (App.handleRectify App.renderEntryV2 sampleState (.ok sampleRectify) (.error "net")).2 =
      some { text := some "Impact-driven engineer.\n\nEngineer at Acme\nShipped X, cutting costs 20%",
             file := none } ∧
    "Impact-driven engineer.\n\nEngineer at Acme\nShipped X, cutting costs 20%" ≠
      App.fullTextOf App.renderEntryV1
        { sampleDraft with
          summary := sampleRectify.revisedSummary
          experience := sampleRectify.revisedExperience } :=
  ⟨rfl, by decide⟩

/-- C8 (amended): whenever the rectification step succeeds, the re-score
extraction call receives a `ResumeSource` with inline text only and no file
payload, the text being the revised summary, a blank line, and the rendered
revised experience entries — rendered as role then bullets in the first App
variant, and as role, `" at "`, company, then bullets in the second. -/
theorem C8_amended_rescore_source
    (render : ExperienceEntry → String) (s : App.AppState)
    (a : AnalysisResult) (d : ResumeDraft) (r : RectifyResponse)
    (out : Except String AnalysisResult)
    (ha : s.analysis = some a) (hd : s.draft = some d) :
    ((App.handleRectify render s (.ok r) out).2 =
      some { text := some (App.fullTextOf render
               { d with summary := r.revisedSummary, experience := r.revisedExperience })
             file := none }) ∧
    (∀ dd : ResumeDraft, App.fullTextOf App.renderEntryV1 dd =
      dd.summary ++ "\n\n" ++ String.intercalate "\n"
        (dd.experience.map (fun e => e.role ++ "\n" ++ String.intercalate "\n" e.bullets))) ∧
    (∀ dd : ResumeDraft, App.fullTextOf App.renderEntryV2 dd =
      dd.summary ++ "\n\n" ++ String.intercalate "\n"
        (dd.experience.map
          (fun e => e.role ++ " at " ++ e.company ++ "\n" ++
            String.intercalate "\n" e.bullets))) := by
  refine ⟨?_, fun dd => rfl, fun dd => rfl⟩
  cases out with
  | error e => simp [App.handleRectify, ha, hd]
  | ok re => simp [App.handleRectify, ha, hd]

/-- C8 witness: the amended theorem applied at the concrete post-extraction
state with the first variant's rendering. -/
theorem C8_amended_witness :
    ((App.handleRectify App.renderEntryV1 sampleState
        (.ok sampleRectify) (.error "net")).2 =
      some { text := some (App.fullTextOf App.renderEntryV1
               { sampleDraft with
                 summary := sampleRectify.revisedSummary
                 experience := sampleRectify.revisedExperience })
             file := none }) ∧
    (∀ dd : ResumeDraft, App.fullTextOf App.renderEntryV1 dd =
      dd.summary ++ "\n\n" ++ String.intercalate "\n"
        (dd.experience.map (fun e => e.role ++ "\n" ++ String.intercalate "\n" e.bullets))) ∧
    (∀ dd : ResumeDraft, App.fullTextOf App.renderEntryV2 dd =
      dd.summary ++ "\n\n" ++ String.intercalate "\n"
        (dd.experience.map
          (fun e => e.role ++ " at " ++ e.company ++ "\n" ++
            String.intercalate "\n" e.bullets))) :=
  C8_amended_rescore_source App.renderEntryV1 sampleState
    sampleAnalysis sampleDraft sampleRectify (.error "net") rfl rfl

/-! ### Claim C9 -/

/-- C9 is falsified as stated: in the first App variant the source-removal
control invokes `setResumeSource(null)` alone, so the operation sequence
upload → successful extraction → remove-source exposes a state with the
source cleared while analysis, draft, and baseline score all persist. -/
theorem C9_counterexample :
    (App.clearSource (App.handleAnalyze
        (App.handleFileUpload App.initialState "QkFTRTY0" "application/pdf" "cv.pdf")
        (.ok sampleAnalysis))).resumeSource = none ∧
    (App.clearSource (App.handleAnalyze
        (App.handleFileUpload App.initialState "QkFTRTY0" "application/pdf" "cv.pdf")
        (.ok sampleAnalysis))).analysis = some sampleAnalysis ∧
    (App.clearSource (App.handleAnalyze
        (App.handleFileUpload App.initialState "QkFTRTY0" "application/pdf" "cv.pdf")
        (.ok sampleAnalysis))).draft = some sampleDraft ∧
    (App.clearSource (App.handleAnalyze
        (App.handleFileUpload App.initialState "QkFTRTY0" "application/pdf" "cv.pdf")
        (.ok sampleAnalysis))).prevScore = some 42 :=
  ⟨rfl, rfl, rfl, rfl⟩

/-- C9 (amended): the `resetAll` transition itself clears source, analysis,
draft, and baseline score (and the job description) in one handler
invocation; but clearing is not atomic across all controls — the first App
variant's source-removal button clears only the source, leaving analysis,
draft, and baseline untouched, so a partially-cleared state is observable. -/
theorem C9_amended_reset_behavior (s : App.AppState) :
    ((App.resetAll s).resumeSource = none ∧
     (App.resetAll s).analysis = none ∧
     (App.resetAll s).draft = none ∧
     (App.resetAll s).prevScore = none ∧
     (App.resetAll s).jobDescription = "") ∧
    ((App.clearSource s).resumeSource = none ∧
     (App.clearSource s).analysis = s.analysis ∧
     (App.clearSource s).draft = s.draft ∧
     (App.clearSource s).prevScore = s.prevScore) :=
  ⟨⟨rfl, rfl, rfl, rfl, rfl⟩, ⟨rfl, rfl, rfl, rfl⟩⟩

/-! ### Claim C10 -/

/-- C10 holds: with both an inline text and a file payload present, the
issued request's parts are exactly the instruction prompt and the file's
inline binary data — the text is ignored; with neither present the request
is still issued, its parts being the instruction prompt alone, and the
outcome is entirely the processing of the delegate's response (no locally
raised error).  Shown for variant A and for the parts/request construction of
variant B, which share this logic. -/
theorem C10_parts_construction
    (k : String) (hk : k ≠ "") (t : String) (f : FilePayload)
    (jd : Option String) (d : Delegate) :
    (GeminiServiceA.buildAnalysisParts { text := some t, file := some f } =
      [Part.text GeminiServiceA.analysisSystemPrompt,
       Part.inlineData f.data f.mimeType]) ∧
    ((GeminiServiceA.analyzeResume (some k) { text := some t, file := some f } jd d).1 =
      [GeminiServiceA.analysisRequest (some k) { text := some t, file := some f }]) ∧
    (GeminiServiceA.buildAnalysisParts { text := none, file := none } =
      [Part.text GeminiServiceA.analysisSystemPrompt]) ∧
    (GeminiServiceA.analyzeResume (some k) { text := none, file := none } jd d =
      ([GeminiServiceA.analysisRequest (some k) { text := none, file := none }],
       GeminiServiceA.processResponse
         (d (GeminiServiceA.analysisRequest (some k) { text := none, file := none })))) ∧
    (GeminiServiceB.buildAnalysisParts jd { text := some t, file := some f } =
      [Part.text (GeminiServiceB.analysisSystemPrompt jd),
       Part.inlineData f.data f.mimeType]) ∧
    (GeminiServiceB.analyzeResume (some k) { text := none, file := none } jd d =
      ([GeminiServiceB.analysisRequest (some k) { text := none, file := none } jd],
       GeminiServiceB.processResponse
         (d (GeminiServiceB.analysisRequest (some k) { text := none, file := none } jd)))) := by
  have hkf : ((k : String) == "") = false := beq_eq_false_iff_ne.mpr hk
  refine ⟨rfl, ?_, rfl, ?_, rfl, rfl⟩ <;>
    simp [GeminiServiceA.analyzeResume, jsFalsy, hkf]

/-- C10 witness: the theorem applied at a concrete credential, text, file and
delegate. -/
theorem C10_witness :
    (GeminiServiceA.buildAnalysisParts { text := some "cv", file := some sampleFile } =
      [Part.text GeminiServiceA.analysisSystemPrompt,
       Part.inlineData sampleFile.data sampleFile.mimeType]) ∧
    ((GeminiServiceA.analyzeResume (some "key") { text := some "cv", file := some sampleFile }
        none (fun _ => .error "down")).1 =
      [GeminiServiceA.analysisRequest (some "key") { text := some "cv", file := some sampleFile }]) ∧
    (GeminiServiceA.buildAnalysisParts { text := none, file := none } =
      [Part.text GeminiServiceA.analysisSystemPrompt]) ∧
    (GeminiServiceA.analyzeResume (some "key") { text := none, file := none } none
        (fun _ => .error "down") =
      ([GeminiServiceA.analysisRequest (some "key") { text := none, file := none }],
       GeminiServiceA.processResponse
         ((fun _ => .error "down")
           (GeminiServiceA.analysisRequest (some "key") { text := none, file := none })))) ∧
    (GeminiServiceB.buildAnalysisParts none { text := some "cv", file := some sampleFile } =
      [Part.text (GeminiServiceB.analysisSystemPrompt none),
       Part.inlineData sampleFile.data sampleFile.mimeType]) ∧
    (GeminiServiceB.analyzeResume (some "key") { text := none, file := none } none
        (fun _ => .error "down") =
      ([GeminiServiceB.analysisRequest (some "key") { text := none, file := none } none],
       GeminiServiceB.processResponse
         ((fun _ => .error "down")
           (GeminiServiceB.analysisRequest (some "key") { text := none, file := none } none)))) :=
  C10_parts_construction "key" (by decide) "cv" sampleFile none (fun _ => .error "down")

end CV
